import Mathlib

/-!
Verification of the Alice moderation adapter
(`src/parlant/contrib/alice/alice.py`).

The adapter is embedded shallowly: the process environment is a function
`String → Option String`, Python truthiness of optional strings is made
explicit, the external SDK evaluator (`self._client.evaluate_response`)
is an explicit function argument, and the side effects of the engine hook
(log lines and emitted message events) are collected in a pure output
structure.  Every call made to the external evaluator is recorded in a
trace so call-count properties can be stated.
-/

namespace AliceSpec

/-- Python truthiness of an `Optional[str]` value: `None` and `""` are falsy. -/
def truthyOpt : Option String → Bool
  | none => false
  | some s => !s.isEmpty

/-- Python `a or b` with `a`, `b : Optional[str]`. -/
def pyOr (a b : Option String) : Option String :=
  if truthyOpt a then a else b

/-- Python `a or b` with `a : Optional[str]` and `b : str`. -/
def pyOrStr (a : Option String) (b : String) : String :=
  match a with
  | none => b
  | some s => if s.isEmpty then b else s

/-- The process environment: `os.getenv name` is `env name`. -/
abbrev Env : Type := String → Option String

/-- `os.getenv name default`: the environment value when the variable is set
(even when set to the empty string), otherwise the default. -/
def getenvD (env : Env) (name default : String) : String :=
  (env name).getD default

/-- The external SDK action enum (`wonderfence_sdk.models.Actions`).  The
source of the adapter only names `DETECT`, `BLOCK` and `MASK`; the spec glossary
lists an allow verdict as well, and `other` stands for any further member of
the externally owned enum. -/
inductive Actions where
  | ALLOW
  | DETECT
  | BLOCK
  | MASK
  | other (n : Nat)
deriving DecidableEq

/-- Image input DTO (`wonderfence_sdk.models.ImageInput`), externally owned
and not inspected by the adapter. -/
structure ImageInput where
  tag : Nat
deriving DecidableEq

/-- An exception raised inside the external SDK call. -/
structure SDKError where
  message : String
deriving DecidableEq

/-- `wonderfence_sdk.models.EvaluateMessageResponse`: the fields the adapter
reads are the action verdict, the replacement text used for masking, and the
detections reported in the log line. -/
structure EvaluateMessageResponse where
  action : Actions
  action_text : String
  detections : List String
deriving DecidableEq

/-- `wonderfence_sdk.client.AnalysisContext`, built by `check_message` with
`user_id=agent_id` and `session_id=session_id`. -/
structure AnalysisContext where
  user_id : String
  session_id : String
deriving DecidableEq

/-- The externally owned `evaluate_response` method of the SDK client: it
receives the analysis context, the optional text response and the optional
image, and either returns a response or raises. -/
abbrev Evaluator : Type :=
  AnalysisContext → Option String → Option ImageInput → Except SDKError EvaluateMessageResponse

/-- The data the adapter passes to the SDK client constructor
(`SDKClient(api_key=..., app_name=...)`). -/
structure SDKClient where
  api_key : Option String
  app_name : Option String
deriving DecidableEq

/-- Python exceptions the adapter itself raises: direct `ValueError`s and
the re-wrapped `Exception(...) from e` around an SDK failure. -/
inductive PyError where
  | valueError (msg : String)
  | exception (msg : String) (cause : SDKError)
deriving DecidableEq

/-- The state an `Alice` instance holds after `__init__`. -/
structure Alice where
  api_key : Option String
  app_name : Option String
  blocked_message : String
  client : SDKClient
deriving DecidableEq

/-- The built-in default for `blocked_message`. -/
def defaultBlockedMessage : String :=
  "The generated message was blocked by guardrails."

/-- `Alice.__init__`: resolve each configuration value as
`parameter or os.getenv(...)`, raise `ValueError` when no API key is
available after fallback, and otherwise construct the SDK client from the
resolved key and app name. -/
def Alice.init (env : Env) (api_key app_name blocked_message : Option String) :
    Except PyError Alice :=
  let api := pyOr api_key (env "ALICE_API_KEY")
  let app := pyOr app_name (env "ALICE_APP_NAME")
  let blocked := pyOrStr blocked_message (getenvD env "ALICE_BLOCKED_MESSAGE" defaultBlockedMessage)
  if truthyOpt api then
    Except.ok
      { api_key := api
        app_name := app
        blocked_message := blocked
        client := { api_key := api, app_name := app } }
  else
    Except.error (PyError.valueError
      "Alice API key is required. Please provide it via the \x27api_key\x27 parameter or set the ALICE_API_KEY environment variable.")

/-- One recorded call to the external evaluator, with the arguments
`check_message` passed to `evaluate_response`. -/
structure EvalCall where
  context : AnalysisContext
  response : Option String
  image : Option ImageInput
deriving DecidableEq

/-- `Alice.check_message`: validate that exactly one of `message`, `image`
is provided, call the external evaluator once, and re-wrap any SDK failure
as `Exception("Moderation service failure (Alice)") from e`.  The second
component records the calls made to the evaluator. -/
def check_message (ev : Evaluator) (session_id agent_id : String)
    (message : Option String) (image : Option ImageInput) :
    Except PyError EvaluateMessageResponse × List EvalCall :=
  if message.isNone && image.isNone then
    (Except.error (PyError.valueError "Either message or image must be provided"), [])
  else if message.isSome && image.isSome then
    (Except.error (PyError.valueError
      "Cannot provide both message and image - they are mutually exclusive"), [])
  else
    let analysis_context : AnalysisContext := { user_id := agent_id, session_id := session_id }
    match ev analysis_context message image with
    | Except.error e =>
        (Except.error (PyError.exception "Moderation service failure (Alice)" e),
          [{ context := analysis_context, response := message, image := image }])
    | Except.ok r =>
        (Except.ok r, [{ context := analysis_context, response := message, image := image }])

/-- `parlant.sdk.EngineHookResult`, restricted to the members the adapter
returns. -/
inductive EngineHookResult where
  | CALL_NEXT
  | BAIL
deriving DecidableEq

/-- The two warning log lines of `check_message_compliance`, with the data
interpolated into each f-string. -/
inductive LogEntry where
  | detectedNonCompliant (generated_message : Option String) (detections : List String)
  | preventedNonCompliant (generated_message : Option String)
deriving DecidableEq

/-- The participant dict passed to `MessageEventData`. -/
structure Participant where
  id : String
  display_name : String
deriving DecidableEq

/-- `parlant.sdk.MessageEventData` as the adapter builds it. -/
structure MessageEventData where
  message : String
  participant : Participant
deriving DecidableEq

/-- One call to `ctx.session_event_emitter.emit_message_event`. -/
structure EmittedEvent where
  trace_id : String
  data : MessageEventData
deriving DecidableEq

/-- The parts of `parlant.sdk.EngineContext` the hook reads. -/
structure EngineContext where
  session_id : String
  agent_id : String
  agent_name : String
  trace_id : String
deriving DecidableEq

/-- The observable outcome of one hook invocation that does not raise:
the warnings logged, the message events emitted, and the returned
`EngineHookResult`. -/
structure HookOutput where
  logs : List LogEntry
  events : List EmittedEvent
  hookResult : EngineHookResult
deriving DecidableEq

/-- `Alice.check_message_compliance`: forward the payload to `check_message`
as the text message, then branch on the response action: `DETECT` logs a
warning and continues, `BLOCK` and `MASK` log a warning, emit a message
event (with the static `blocked_message` for `BLOCK` and the
`action_text` of the response for `MASK`) and bail, and anything else continues silently.
The second component records the calls made to the evaluator. -/
def Alice.check_message_compliance (a : Alice) (ev : Evaluator)
    (ctx : EngineContext) (payload : Option String) (exc : Option SDKError) :
    Except PyError HookOutput × List EvalCall :=
  let generated_message := payload
  match check_message ev ctx.session_id ctx.agent_id generated_message none with
  | (Except.error e, calls) => (Except.error e, calls)
  | (Except.ok result, calls) =>
    if result.action = Actions.DETECT then
      (Except.ok
        { logs := [LogEntry.detectedNonCompliant generated_message result.detections]
          events := []
          hookResult := EngineHookResult.CALL_NEXT }, calls)
    else if result.action = Actions.BLOCK ∨ result.action = Actions.MASK then
      let message := if result.action = Actions.MASK then result.action_text else a.blocked_message
      (Except.ok
        { logs := [LogEntry.preventedNonCompliant generated_message]
          events := [{ trace_id := ctx.trace_id
                       data := { message := message
                                 participant := { id := ctx.agent_id
                                                  display_name := ctx.agent_name } } }]
          hookResult := EngineHookResult.BAIL }, calls)
    else
      (Except.ok { logs := [], events := [], hookResult := EngineHookResult.CALL_NEXT }, calls)

/-- An NLP service binding in the container: either some host-provided
service or the Alice wrapper around an inner binding. -/
inductive NLPBinding where
  | service (tag : Nat)
  | aliceWrapper (inner : NLPBinding) (client : SDKClient) (logger : Nat) (meter : Nat)
deriving DecidableEq

/-- Modelled from the spec: `AliceNLPServiceWrapper` is defined in
`moderation_service.py`, which is not among the available source files; per
the spec it wraps the host NLP service so moderation is inserted into the
generation pipeline.  At its only call site in `configure_container` it is
constructed from the original NLP service, the SDK client, the logger and
the meter, which is all this development depends on, so it is embedded as
the `NLPBinding.aliceWrapper` constructor applied to those arguments. -/
def AliceNLPServiceWrapper (inner : NLPBinding) (client : SDKClient)
    (logger meter : Nat) : NLPBinding :=
  NLPBinding.aliceWrapper inner client logger meter

/-- A registered engine hook: the bound
`check_message_compliance` of the adapter, or any other hook already in the list. -/
inductive Hook where
  | aliceCheckMessageCompliance (a : Alice)
  | other (tag : Nat)
deriving DecidableEq

/-- The parts of `parlant.sdk.EngineHooks` relevant here: the
`on_message_generated` hook list, with every other hook list abstracted
into one representative. -/
structure EngineHooks where
  on_message_generated : List Hook
  other_hooks : Nat
deriving DecidableEq

/-- The dependency container: the bindings `configure_container` touches or
reads (`NLPService`, `Logger`, `Meter`, `EngineHooks`, the `Alice` key),
with every remaining binding abstracted into one representative. -/
structure Container where
  nlpService : NLPBinding
  logger : Nat
  meter : Nat
  engineHooks : EngineHooks
  alice : Option Alice
  otherBindings : Nat
deriving DecidableEq

/-- `Alice.configure_container`: wrap the original NLP service, append the
compliance hook to `on_message_generated`, and register the instance under
the `Alice` key. -/
def Alice.configure_container (a : Alice) (container : Container) : Container :=
  let original_nlp_service := container.nlpService
  let logger := container.logger
  let meter := container.meter
  let wrapped_nlp_service := AliceNLPServiceWrapper original_nlp_service a.client logger meter
  { container with
      nlpService := wrapped_nlp_service
      engineHooks := { container.engineHooks with
        on_message_generated := container.engineHooks.on_message_generated ++
          [Hook.aliceCheckMessageCompliance a] }
      alice := some a }

/-! ### Helper lemmas -/

/-- An optional string is falsy exactly when it is `None` or the empty
string. -/
theorem truthyOpt_eq_false_iff (x : Option String) :
    truthyOpt x = false ↔ x = none ∨ x = some "" := by
  cases x with
  | none => simp [truthyOpt]
  | some s => simp [truthyOpt, String.isEmpty_iff]

/-- `pyOr` is falsy exactly when both arguments are falsy. -/
theorem truthyOpt_pyOr_eq_false_iff (x y : Option String) :
    truthyOpt (pyOr x y) = false ↔ truthyOpt x = false ∧ truthyOpt y = false := by
  unfold pyOr
  cases htx : truthyOpt x <;> simp [htx]

/-- The evaluator-call trace of the hook is exactly the trace of the inner
`check_message` call on the payload. -/
theorem check_message_compliance_snd (a : Alice) (ev : Evaluator) (ctx : EngineContext)
    (payload : Option String) (exc : Option SDKError) :
    (a.check_message_compliance ev ctx payload exc).2 =
      (check_message ev ctx.session_id ctx.agent_id payload none).2 := by
  simp only [Alice.check_message_compliance]
  rcases hcm : check_message ev ctx.session_id ctx.agent_id payload none with ⟨res, calls⟩
  cases res with
  | error e => rfl
  | ok r =>
    simp only
    split
    · rfl
    · split <;> rfl

/-! ### Concrete instances used by witnesses -/

/-- An environment with no variable set. -/
def envEmpty : Env := fun _ => none

/-- An evaluator that always returns a `BLOCK` verdict. -/
def evBlock : Evaluator := fun _ _ _ =>
  Except.ok { action := Actions.BLOCK, action_text := "masked text", detections := [] }

/-- An evaluator that always raises. -/
def evFail : Evaluator := fun _ _ _ => Except.error { message := "boom" }

/-- A concrete `Alice` instance. -/
def aliceTest : Alice :=
  { api_key := some "k"
    app_name := none
    blocked_message := "blocked"
    client := { api_key := some "k", app_name := none } }

/-- A concrete engine context. -/
def ctxTest : EngineContext :=
  { session_id := "sess", agent_id := "ag", agent_name := "Agent", trace_id := "tr" }

/-! ### Claims -/

/-- C4: the constructor resolves each configuration value from its
parameter with environment-variable fallback: a truthy `api_key` parameter
wins, otherwise `ALICE_API_KEY` is used; likewise `app_name` with
`ALICE_APP_NAME`; and `blocked_message` with `ALICE_BLOCKED_MESSAGE`,
falling back to the built-in default when neither the parameter nor the
environment variable supplies a value. -/
theorem alice_c4_env_fallback (env : Env) (api_key app_name blocked_message : Option String)
    (a : Alice) (h : Alice.init env api_key app_name blocked_message = Except.ok a) :
    (∀ s, api_key = some s → s ≠ "" → a.api_key = some s) ∧
    ((api_key = none ∨ api_key = some "") → a.api_key = env "ALICE_API_KEY") ∧
    (∀ s, app_name = some s → s ≠ "" → a.app_name = some s) ∧
    ((app_name = none ∨ app_name = some "") → a.app_name = env "ALICE_APP_NAME") ∧
    (∀ s, blocked_message = some s → s ≠ "" → a.blocked_message = s) ∧
    ((blocked_message = none ∨ blocked_message = some "") →
      ∀ v, env "ALICE_BLOCKED_MESSAGE" = some v → a.blocked_message = v) ∧
    ((blocked_message = none ∨ blocked_message = some "") →
      env "ALICE_BLOCKED_MESSAGE" = none →
      a.blocked_message = "The generated message was blocked by guardrails.") := by
  simp only [Alice.init] at h
  split at h
  · cases h
    refine ⟨?_, ?_, ?_, ?_, ?_, ?_, ?_⟩
    · rintro s rfl hne
      simp [pyOr, truthyOpt, String.isEmpty_iff, hne]
    · rintro (rfl | rfl) <;> simp [pyOr, truthyOpt, String.isEmpty_iff]
    · rintro s rfl hne
      simp [pyOr, truthyOpt, String.isEmpty_iff, hne]
    · rintro (rfl | rfl) <;> simp [pyOr, truthyOpt, String.isEmpty_iff]
    · rintro s rfl hne
      simp [pyOrStr, String.isEmpty_iff, hne]
    · rintro (rfl | rfl) v hv <;> simp [pyOrStr, getenvD, hv, String.isEmpty_iff]
    · rintro (rfl | rfl) hv <;>
        simp [pyOrStr, getenvD, hv, String.isEmpty_iff, defaultBlockedMessage]
  · cases h

/-- A concrete `Alice` instance as built from just an API key parameter in
an empty environment. -/
def aliceFromKey : Alice :=
  { api_key := some "k"
    app_name := none
    blocked_message := "The generated message was blocked by guardrails."
    client := { api_key := some "k", app_name := none } }

/-- C4 witness: with no parameter and no environment variable for it, the
blocked message is the built-in default. -/
theorem alice_c4_witness :
    aliceFromKey.blocked_message = "The generated message was blocked by guardrails." :=
  (alice_c4_env_fallback envEmpty (some "k") none none aliceFromKey
      rfl).2.2.2.2.2.2 (Or.inl rfl) rfl

/-- C5: construction fails with a `ValueError` exactly when no API key is
available after fallback (parameter absent or empty, and `ALICE_API_KEY`
unset or empty); on success the SDK client is instantiated from the
resolved key and the resolved app name. -/
theorem alice_c5_api_key_required (env : Env) (api_key app_name blocked_message : Option String) :
    ((∃ m, Alice.init env api_key app_name blocked_message =
        Except.error (PyError.valueError m)) ↔
      ((api_key = none ∨ api_key = some "") ∧
        (env "ALICE_API_KEY" = none ∨ env "ALICE_API_KEY" = some ""))) ∧
    (∀ a, Alice.init env api_key app_name blocked_message = Except.ok a →
      a.client = { api_key := a.api_key, app_name := a.app_name }) := by
  constructor
  · have hiff : (∃ m, Alice.init env api_key app_name blocked_message =
        Except.error (PyError.valueError m)) ↔
        truthyOpt (pyOr api_key (env "ALICE_API_KEY")) = false := by
      simp only [Alice.init]
      cases hc : truthyOpt (pyOr api_key (env "ALICE_API_KEY")) <;> simp [hc]
    rw [hiff, truthyOpt_pyOr_eq_false_iff, truthyOpt_eq_false_iff, truthyOpt_eq_false_iff]
  · intro a ha
    simp only [Alice.init] at ha
    split at ha
    · cases ha
      rfl
    · cases ha

/-- C5 witness: a successful construction holds a client built from the
resolved key and app name. -/
theorem alice_c5_witness :
    aliceFromKey.client =
      { api_key := aliceFromKey.api_key, app_name := aliceFromKey.app_name } :=
  (alice_c5_api_key_required envEmpty (some "k") none none).2 aliceFromKey rfl

/-- C6: one hook invocation calls the external evaluator at most once, and
exactly once whenever the payload carries a generated message; no action
value leads to a second call. -/
theorem alice_c6_evaluator_called_once (a : Alice) (ev : Evaluator) (ctx : EngineContext)
    (payload : Option String) (exc : Option SDKError) :
    (a.check_message_compliance ev ctx payload exc).2.length ≤ 1 ∧
    (∀ s, payload = some s →
      (a.check_message_compliance ev ctx payload exc).2.length = 1) := by
  constructor
  · rw [check_message_compliance_snd]
    cases payload with
    | none => simp [check_message]
    | some s =>
      rcases hev : ev { user_id := ctx.agent_id, session_id := ctx.session_id }
          (some s) none with e | r <;>
        simp [check_message, hev]
  · rintro s rfl
    rw [check_message_compliance_snd]
    rcases hev : ev { user_id := ctx.agent_id, session_id := ctx.session_id }
        (some s) none with e | r <;>
      simp [check_message, hev]

/-- C6 witness: with a generated message in the payload the evaluator is
called exactly once. -/
theorem alice_c6_witness :
    (aliceTest.check_message_compliance evBlock ctxTest (some "hi") none).2.length = 1 :=
  (alice_c6_evaluator_called_once aliceTest evBlock ctxTest (some "hi") none).2 "hi" rfl

/-- C7: `configure_container` returns the received container modified in
exactly three ways: the NLP service binding becomes the Alice wrapper
around the original service (built with the client, logger and meter), the
compliance hook is appended to `on_message_generated`, and the instance is
bound under the `Alice` key; the logger, meter, every other hook list and
every other binding are unchanged. -/
theorem alice_c7_container_effects (a : Alice) (c : Container) :
    (a.configure_container c).nlpService =
        AliceNLPServiceWrapper c.nlpService a.client c.logger c.meter ∧
    (a.configure_container c).engineHooks.on_message_generated =
        c.engineHooks.on_message_generated ++ [Hook.aliceCheckMessageCompliance a] ∧
    (a.configure_container c).alice = some a ∧
    (a.configure_container c).logger = c.logger ∧
    (a.configure_container c).meter = c.meter ∧
    (a.configure_container c).engineHooks.other_hooks = c.engineHooks.other_hooks ∧
    (a.configure_container c).otherBindings = c.otherBindings :=
  ⟨rfl, rfl, rfl, rfl, rfl, rfl, rfl⟩

/-- C1: for every response the moderation call returns inside
`check_message_compliance`: a `DETECT` action only logs a warning and
returns `CALL_NEXT`; a `BLOCK` action emits a message event carrying the
configured static `blocked_message` and returns `BAIL`; a `MASK` action
emits a message event carrying the service-provided `action_text` and
returns `BAIL`; any other action emits nothing (and logs nothing) and
returns `CALL_NEXT`. -/
theorem alice_c1_action_branching (a : Alice) (ev : Evaluator) (ctx : EngineContext)
    (s : String) (exc : Option SDKError) (r : EvaluateMessageResponse)
    (hev : ev { user_id := ctx.agent_id, session_id := ctx.session_id } (some s) none =
      Except.ok r) :
    (r.action = Actions.DETECT →
      (a.check_message_compliance ev ctx (some s) exc).1 = Except.ok
        { logs := [LogEntry.detectedNonCompliant (some s) r.detections]
          events := []
          hookResult := EngineHookResult.CALL_NEXT }) ∧
    (r.action = Actions.BLOCK →
      (a.check_message_compliance ev ctx (some s) exc).1 = Except.ok
        { logs := [LogEntry.preventedNonCompliant (some s)]
          events := [{ trace_id := ctx.trace_id
                       data := { message := a.blocked_message
                                 participant := { id := ctx.agent_id
                                                  display_name := ctx.agent_name } } }]
          hookResult := EngineHookResult.BAIL }) ∧
    (r.action = Actions.MASK →
      (a.check_message_compliance ev ctx (some s) exc).1 = Except.ok
        { logs := [LogEntry.preventedNonCompliant (some s)]
          events := [{ trace_id := ctx.trace_id
                       data := { message := r.action_text
                                 participant := { id := ctx.agent_id
                                                  display_name := ctx.agent_name } } }]
          hookResult := EngineHookResult.BAIL }) ∧
    (r.action ≠ Actions.DETECT → r.action ≠ Actions.BLOCK → r.action ≠ Actions.MASK →
      (a.check_message_compliance ev ctx (some s) exc).1 = Except.ok
        { logs := [], events := [], hookResult := EngineHookResult.CALL_NEXT }) := by
  refine ⟨fun h1 => ?_, fun h1 => ?_, fun h1 => ?_, fun h1 h2 h3 => ?_⟩ <;>
    simp [Alice.check_message_compliance, check_message, hev, h1]
  · simp [h2, h3]

/-- C1 witness: on a `BLOCK` verdict the hook emits the configured blocked
message and bails. -/
theorem alice_c1_witness :
    (aliceTest.check_message_compliance evBlock ctxTest (some "hi") none).1 = Except.ok
      { logs := [LogEntry.preventedNonCompliant (some "hi")]
        events := [{ trace_id := "tr"
                     data := { message := "blocked"
                               participant := { id := "ag", display_name := "Agent" } } }]
        hookResult := EngineHookResult.BAIL } :=
  (alice_c1_action_branching aliceTest evBlock ctxTest "hi" none
      { action := Actions.BLOCK, action_text := "masked text", detections := [] } rfl).2.1 rfl

/-- C2: `check_message` fails with a `ValueError` exactly when `message`
and `image` are not mutually exclusive (both absent or both present), and
in those failure cases the external evaluator is never called. -/
theorem alice_c2_xor_validation (ev : Evaluator) (sid aid : String)
    (message : Option String) (image : Option ImageInput) :
    ((∃ m, (check_message ev sid aid message image).1 =
        Except.error (PyError.valueError m)) ↔
      ((message = none ∧ image = none) ∨ (message ≠ none ∧ image ≠ none))) ∧
    (((message = none ∧ image = none) ∨ (message ≠ none ∧ image ≠ none)) →
      (check_message ev sid aid message image).2 = []) := by
  cases message with
  | none =>
    cases image with
    | none => simp [check_message]
    | some i =>
      rcases hev : ev { user_id := aid, session_id := sid } none (some i) with e | r <;>
        simp [check_message, hev]
  | some s =>
    cases image with
    | none =>
      rcases hev : ev { user_id := aid, session_id := sid } (some s) none with e | r <;>
        simp [check_message, hev]
    | some i => simp [check_message]

/-- C2 witness: with both arguments absent, the evaluator is not called. -/
theorem alice_c2_witness :
    (check_message evBlock "sess" "ag" none none).2 = [] :=
  (alice_c2_xor_validation evBlock "sess" "ag" none none).2 (Or.inl ⟨rfl, rfl⟩)

/-- C3: when the external evaluator raises, `check_message` re-raises a new
`Exception` with message "Moderation service failure (Alice)" chained from
the original error, after exactly one evaluator call (no retry); the
input-validation `ValueError`s are raised directly, unwrapped. -/
theorem alice_c3_error_wrapping (ev : Evaluator) (sid aid : String)
    (message : Option String) (image : Option ImageInput) (e : SDKError)
    (hxor : (message = none ∧ image ≠ none) ∨ (message ≠ none ∧ image = none))
    (hev : ev { user_id := aid, session_id := sid } message image = Except.error e) :
    check_message ev sid aid message image =
      (Except.error (PyError.exception "Moderation service failure (Alice)" e),
        [{ context := { user_id := aid, session_id := sid }
           response := message
           image := image }]) ∧
    (check_message ev sid aid none none).1 =
      Except.error (PyError.valueError "Either message or image must be provided") ∧
    ∀ m i, (check_message ev sid aid (some m) (some i)).1 =
      Except.error (PyError.valueError
        "Cannot provide both message and image - they are mutually exclusive") := by
  refine ⟨?_, rfl, fun m i => rfl⟩
  cases message with
  | none =>
    cases image with
    | none => rcases hxor with ⟨_, h⟩ | ⟨h, _⟩ <;> simp at h
    | some i => simp [check_message, hev]
  | some s =>
    cases image with
    | none => simp [check_message, hev]
    | some i => rcases hxor with ⟨h, _⟩ | ⟨_, h⟩ <;> simp at h

/-- C3 witness: a failing evaluator is wrapped as the single moderation
failure after one recorded call. -/
theorem alice_c3_witness :
    check_message evFail "sess" "ag" (some "hi") none =
      (Except.error (PyError.exception "Moderation service failure (Alice)"
          { message := "boom" }),
        [{ context := { user_id := "ag", session_id := "sess" }
           response := some "hi"
           image := none }]) :=
  (alice_c3_error_wrapping evFail "sess" "ag" (some "hi") none { message := "boom" }
      (Or.inr ⟨by simp, rfl⟩) rfl).1

/-- C9: the outcome of the hook (result, logs, emitted events and even the
recorded evaluator calls) does not depend on the `exc` argument: two
invocations differing only in `exc` are identical. -/
theorem alice_c9_exc_independent (a : Alice) (ev : Evaluator) (ctx : EngineContext)
    (payload : Option String) (exc₁ exc₂ : Option SDKError) :
    a.check_message_compliance ev ctx payload exc₁ =
      a.check_message_compliance ev ctx payload exc₂ :=
  rfl

/-- C8: every call the hook makes to the evaluator carries the payload as
the text message and no image; consequently a `None` payload fails the
neither-message-nor-image validation with a `ValueError` instead of
producing a hook result. -/
theorem alice_c8_payload_forwarded_as_text (a : Alice) (ev : Evaluator)
    (ctx : EngineContext) (payload : Option String) (exc : Option SDKError) :
    (∀ c ∈ (a.check_message_compliance ev ctx payload exc).2,
        c.response = payload ∧ c.image = none) ∧
    (payload = none →
      (a.check_message_compliance ev ctx payload exc).1 =
        Except.error (PyError.valueError "Either message or image must be provided")) := by
  constructor
  · intro c hc
    rw [check_message_compliance_snd] at hc
    cases payload with
    | none => simp [check_message] at hc
    | some s =>
      rcases hev : ev { user_id := ctx.agent_id, session_id := ctx.session_id }
          (some s) none with e | r <;>
        simp [check_message, hev] at hc <;> subst hc <;> exact ⟨rfl, rfl⟩
  · rintro rfl
    rfl

/-- C8 witness: a `None` payload raises the validation `ValueError`. -/
theorem alice_c8_witness :
    (aliceTest.check_message_compliance evBlock ctxTest none none).1 =
      Except.error (PyError.valueError "Either message or image must be provided") :=
  (alice_c8_payload_forwarded_as_text aliceTest evBlock ctxTest none none).2 rfl

/-- C10: an empty-string constructor parameter behaves exactly like an
absent one, for each of `api_key`, `app_name` and `blocked_message`; in
particular an empty `api_key` with `ALICE_API_KEY` unset raises the
API-key `ValueError`. -/
theorem alice_c10_empty_string_as_absent (env : Env)
    (api_key app_name blocked_message : Option String) :
    Alice.init env (some "") app_name blocked_message =
      Alice.init env none app_name blocked_message ∧
    Alice.init env api_key (some "") blocked_message =
      Alice.init env api_key none blocked_message ∧
    Alice.init env api_key app_name (some "") =
      Alice.init env api_key app_name none ∧
    (env "ALICE_API_KEY" = none →
      Alice.init env (some "") app_name blocked_message =
        Except.error (PyError.valueError
          "Alice API key is required. Please provide it via the \x27api_key\x27 parameter or set the ALICE_API_KEY environment variable.")) := by
  refine ⟨rfl, rfl, rfl, fun h => ?_⟩
  have hkey : truthyOpt (pyOr (some "") (env "ALICE_API_KEY")) = false := by
    rw [h]
    rfl
  simp [Alice.init, hkey]

/-- C10 witness: `Alice(api_key="")` in an empty environment raises the
API-key `ValueError`. -/
theorem alice_c10_witness :
    Alice.init envEmpty (some "") none none =
      Except.error (PyError.valueError
        "Alice API key is required. Please provide it via the \x27api_key\x27 parameter or set the ALICE_API_KEY environment variable.") :=
  (alice_c10_empty_string_as_absent envEmpty none none none).2.2.2 rfl

end AliceSpec
